import Mathlib

/-!
Verification of the caching and lifecycle layer of `src/wgpu/src/text.rs`
(the GPU text pipeline of the iced repository).

The development is a shallow embedding of that file:

* Rust `u64` arithmetic is `Nat` arithmetic taken `% 2 ^ 64` wherever
  overflow matters.
* The cache fingerprint (`Cache::allocate`, lines 306-316) hashes the raw
  bytes written by the Rust `Hash` impls through `twox_hash::XxHash64`,
  which is a streaming implementation of the reference XXH64 algorithm;
  XXH64 is implemented here in full and validated against the published
  test vectors.
* `f32` values are carried as their IEEE-754 bit patterns (`F32.bits`)
  where the code hashes bits, and decoded to exact rationals (`F32.val`)
  where the code computes with the values.  Arithmetic on the decoded
  values is exact rational arithmetic; every concrete input used in a
  theorem below is chosen so that the `f32` computation it models is
  exact, and symbolic theorems state the data flow of the code, not
  floating-point rounding.
* The external collaborators (glyphon shaping, the GPU renderer and the
  atlas) are parameters: shaping is a function `Key → Buffer`, the
  renderer preparation outcome and the atlas grow outcome are inputs of
  `Pipeline.prepare`, and the atlas itself is an abstract type.
-/

set_option maxRecDepth 8000

namespace IcedText

/-! ## 64-bit modular arithmetic helpers (Rust `u64` semantics) -/

/-- The modulus of Rust's `u64` arithmetic. -/
def w64 : Nat := 2 ^ 64

/-- Wrapping 64-bit addition. -/
def add64 (a b : Nat) : Nat := (a + b) % w64

/-- Wrapping 64-bit multiplication. -/
def mul64 (a b : Nat) : Nat := (a * b) % w64

/-- Wrapping 64-bit subtraction. -/
def sub64 (a b : Nat) : Nat := (a + (w64 - b % w64)) % w64

/-- 64-bit rotate-left by `r` bits (used with `0 < r < 64`). -/
def rotl64 (x r : Nat) : Nat := (x % w64 * 2 ^ r + x % w64 / 2 ^ (64 - r)) % w64

/-- Little-endian read of the first `n` bytes of `l` as one unsigned integer. -/
def readLE (l : List Nat) (n : Nat) : Nat :=
  (l.take n).reverse.foldl (fun acc b => acc * 256 + b % 256) 0

/-- Little-endian byte serialization: the `n` base-256 digits of `x % 256 ^ n`.
Models how Rust's default `Hasher::write_u32`/`write_u64` feed native-endian
(little-endian on the supported targets) bytes to the hasher. -/
def leBytes (n x : Nat) : List Nat :=
  (List.range n).map fun i => x / 256 ^ i % 256

/-! ## XXH64

`twox_hash::XxHash64` — the hasher behind the cache's `HashBuilder`
(src/wgpu/src/text.rs lines 282-286) — is a streaming implementation of the
reference XXH64 algorithm: a sequence of `write` calls followed by `finish`
yields XXH64 of the concatenated bytes under the builder's seed. -/

def prime1 : Nat := 0x9E3779B185EBCA87
def prime2 : Nat := 0xC2B2AE3D27D4EB4F
def prime3 : Nat := 0x165667B19E3779F9
def prime4 : Nat := 0x85EBCA77C2B2AE63
def prime5 : Nat := 0x27D4EB2F165667C5

/-- One XXH64 accumulator round. -/
def xxhRound (acc lane : Nat) : Nat :=
  mul64 (rotl64 (add64 acc (mul64 lane prime2)) 31) prime1

/-- XXH64 accumulator merge step used for inputs of 32 bytes or more. -/
def xxhMerge (acc v : Nat) : Nat :=
  add64 (mul64 (Nat.xor acc (xxhRound 0 v)) prime1) prime4

/-- Loop of `xxhStripes`, written with structural fuel recursion so that it
reduces inside the kernel.  Each iteration consumes 32 bytes, so any fuel of
at least `l.length` makes the loop run exactly as long as 32 bytes remain,
like the reference implementation's while loop. -/
def xxhStripesGo (fuel : Nat) (v : Nat × Nat × Nat × Nat) (l : List Nat) :
    (Nat × Nat × Nat × Nat) × List Nat :=
  match fuel with
  | 0 => (v, l)
  | fuel + 1 =>
    if 32 ≤ l.length then
      xxhStripesGo fuel
        (xxhRound v.1 (readLE l 8),
         xxhRound v.2.1 (readLE (l.drop 8) 8),
         xxhRound v.2.2.1 (readLE (l.drop 16) 8),
         xxhRound v.2.2.2 (readLE (l.drop 24) 8))
        (l.drop 32)
    else (v, l)

/-- Consume 32-byte stripes, updating the four accumulators; returns the
final accumulators and the remaining input (fewer than 32 bytes). -/
def xxhStripes (v : Nat × Nat × Nat × Nat) (l : List Nat) :
    (Nat × Nat × Nat × Nat) × List Nat :=
  xxhStripesGo l.length v l

/-- Loop of `xxhTail8` with structural fuel recursion (each iteration
consumes 8 bytes, so fuel `l.length` suffices). -/
def xxhTail8Go (fuel : Nat) (h : Nat) (l : List Nat) : Nat × List Nat :=
  match fuel with
  | 0 => (h, l)
  | fuel + 1 =>
    if 8 ≤ l.length then
      xxhTail8Go fuel
        (add64 (mul64 (rotl64 (Nat.xor h (xxhRound 0 (readLE l 8))) 27) prime1) prime4)
        (l.drop 8)
    else (h, l)

/-- Finalization: consume remaining 8-byte chunks. -/
def xxhTail8 (h : Nat) (l : List Nat) : Nat × List Nat :=
  xxhTail8Go l.length h l

/-- Finalization: consume one remaining 4-byte chunk, if any. -/
def xxhTail4 (h : Nat) (l : List Nat) : Nat × List Nat :=
  if 4 ≤ l.length then
    (add64 (mul64 (rotl64 (Nat.xor h (mul64 (readLE l 4) prime1)) 23) prime2) prime3, l.drop 4)
  else (h, l)

/-- Finalization: consume the remaining single bytes. -/
def xxhTail1 (h : Nat) (l : List Nat) : Nat :=
  l.foldl (fun h b => mul64 (rotl64 (Nat.xor h (mul64 (b % 256) prime5)) 11) prime1) h

/-- The XXH64 avalanche (final bit mixing). -/
def xxhAvalanche (h : Nat) : Nat :=
  let h1 := mul64 (Nat.xor h (h / 2 ^ 33)) prime2
  let h2 := mul64 (Nat.xor h1 (h1 / 2 ^ 29)) prime3
  Nat.xor h2 (h2 / 2 ^ 32)

/-- XXH64 of a byte sequence under a seed. -/
def xxh64 (seed : Nat) (input : List Nat) : Nat :=
  let pr :=
    if 32 ≤ input.length then
      let s := xxhStripes
        (add64 (add64 seed prime1) prime2, add64 seed prime2, seed % w64, sub64 seed prime1)
        input
      (xxhMerge (xxhMerge (xxhMerge (xxhMerge
          (add64 (add64 (add64 (rotl64 s.1.1 1) (rotl64 s.1.2.1 7))
            (rotl64 s.1.2.2.1 12)) (rotl64 s.1.2.2.2 18))
          s.1.1) s.1.2.1) s.1.2.2.1) s.1.2.2.2,
       s.2)
    else ((seed + prime5) % w64, input)
  let h0 := add64 pr.1 input.length
  let t8 := xxhTail8 h0 pr.2
  let t4 := xxhTail4 t8.1 t8.2
  xxhAvalanche (xxhTail1 t4.1 t4.2)

/-- Validation of the XXH64 embedding against the published test vector for
the empty input. -/
theorem xxh64_vector_empty : xxh64 0 [] = 0xEF46DB3751D8E999 := by decide

/-- Validation against the test vector for the one-byte input `"a"`. -/
theorem xxh64_vector_a : xxh64 0 [97] = 0xD24EC4F1A98C6E5B := by decide

/-- Validation against the test vector for `"abc"`. -/
theorem xxh64_vector_abc : xxh64 0 [97, 98, 99] = 0x44BC2CF5AD770999 := by decide

/-- Validation against the 43-byte test vector `"The quick brown fox jumps
over the lazy dog"`, which exercises the 32-byte stripe path. -/
theorem xxh64_vector_fox :
    xxh64 0 [84, 104, 101, 32, 113, 117, 105, 99, 107, 32, 98, 114, 111, 119, 110,
      32, 102, 111, 120, 32, 106, 117, 109, 112, 115, 32, 111, 118, 101, 114, 32,
      116, 104, 101, 32, 108, 97, 122, 121, 32, 100, 111, 103] = 0x0B242D361FDA71BC := by
  decide

/-! ## Cache keys and their fingerprint (src/wgpu/src/text.rs lines 301-316, 351-359) -/

/-- An `f32` carried as its IEEE-754 bit pattern (`f32::to_bits`), the
representation the cache hashes. -/
structure F32 where
  bits : Nat
deriving DecidableEq, Repr

/-- Exact rational value denoted by an `F32` bit pattern.  NaN and the
infinities (exponent `255`), which no claim exercises, are mapped to `0`. -/
def F32.val (x : F32) : ℚ :=
  let b : Nat := x.bits % 2 ^ 32
  let sign : ℚ := if b / 2 ^ 31 = 1 then -1 else 1
  let e : Nat := b / 2 ^ 23 % 2 ^ 8
  let m : Nat := b % 2 ^ 23
  if e = 0 then sign * (m : ℚ) / 2 ^ 149
  else if e = 255 then 0
  else sign * ((2 ^ 23 + m : Nat) : ℚ) * 2 ^ e / 2 ^ 150

/-- The font descriptor (`crate::core::Font`).  Its variants are those
matched by `to_family` (src/wgpu/src/text.rs lines 265-274); a named family
carries the UTF-8 bytes of its name. -/
inductive Font where
  | name (n : List Nat)
  | sansSerif
  | serif
  | cursive
  | fantasy
  | monospace
deriving DecidableEq, Repr

/-- Modelled from the spec: `Font` lives in `crate::core`, outside `src/`,
where the spec describes it as "a font descriptor (named family or one of
sans-serif, serif, cursive, fantasy, monospace)" hashed as part of the
cache key.  Its derived `Hash` impl is modelled as an 8-byte little-endian
discriminant (variants numbered in source order) followed, for a named
family, by the name's bytes and the `0xff` string terminator. -/
def fontBytes : Font → List Nat
  | .name n => leBytes 8 0 ++ n ++ [0xff]
  | .sansSerif => leBytes 8 1
  | .serif => leBytes 8 2
  | .cursive => leBytes 8 3
  | .fantasy => leBytes 8 4
  | .monospace => leBytes 8 5

/-- `core::Size` restricted to the two `f32` fields the key stores. -/
structure SizeF where
  width : F32
  height : F32
deriving DecidableEq, Repr

/-- The cache key (src/wgpu/src/text.rs lines 351-357): content (UTF-8
bytes of the `&str`), font size, font, and wrap bounds. -/
structure Key where
  content : List Nat
  size : F32
  font : Font
  bounds : SizeF
deriving DecidableEq, Repr

/-- The byte stream `Cache::allocate` feeds to the hasher (lines 306-316):
`content` (str hashing writes the bytes then `0xff`), `size.to_bits()`
(4 bytes, native little-endian), the font, then the two bounds fields as
`to_bits()`. -/
def Key.bytes (k : Key) : List Nat :=
  k.content ++ [0xff] ++ leBytes 4 k.size.bits ++ fontBytes k.font
    ++ leBytes 4 k.bounds.width.bits ++ leBytes 4 k.bounds.height.bits

/-- The fingerprint computed by `Cache::allocate`: XXH64 of the key's byte
stream under the builder's seed.  On non-wasm targets the builder is
`twox_hash::RandomXxHashBuilder64`, which draws a random seed when the
`Cache` is created (once per cache per process run); the seed is a
parameter here. -/
def fingerprint (seed : Nat) (k : Key) : Nat := xxh64 seed k.bytes

/-! Concrete sample keys used by witnesses and counterexamples.  Bit
patterns: `16.0f32 = 0x41800000`, `100.0f32 = 0x42C80000`,
`50.0f32 = 0x42480000`; `[104, 105]` is `"hi"`. -/

/-- Sample key: content `"hi"`, size `16.0`, sans-serif, bounds `100.0 × 50.0`. -/
def sampleKey : Key :=
  { content := [104, 105], size := ⟨0x41800000⟩, font := .sansSerif,
    bounds := { width := ⟨0x42C80000⟩, height := ⟨0x42480000⟩ } }

/-- `sampleKey` with the least-significant bit of `bounds.width` flipped
(`0x42C80000 → 0x42C80001`). -/
def sampleKeyLsb : Key :=
  { content := [104, 105], size := ⟨0x41800000⟩, font := .sansSerif,
    bounds := { width := ⟨0x42C80001⟩, height := ⟨0x42480000⟩ } }

/-! ## The fingerprint is a 64-bit value -/

theorem w64_pos : 0 < w64 := by decide

theorem mul64_lt (a b : Nat) : mul64 a b < w64 := Nat.mod_lt _ w64_pos

/-- The avalanche output fits in 64 bits (its last step xors a reduced
value with one of its own right-shifts). -/
theorem xxhAvalanche_lt (h : Nat) : xxhAvalanche h < w64 := by
  have hx : ∀ x : Nat, x < w64 → Nat.xor x (x / 2 ^ 32) < w64 := fun x hxw =>
    Nat.xor_lt_two_pow hxw (lt_of_le_of_lt (Nat.div_le_self x _) hxw)
  exact hx _ (mul64_lt _ _)

/-- `xxh64` always produces a value below `2 ^ 64`: it is a `u64`. -/
theorem xxh64_lt (seed : Nat) (input : List Nat) : xxh64 seed input < w64 :=
  xxhAvalanche_lt _

/-- `fingerprint` always produces a value below `2 ^ 64`. -/
theorem fingerprint_lt (seed : Nat) (k : Key) : fingerprint seed k < 2 ^ 64 :=
  xxh64_lt seed k.bytes

/-! ## Shaped buffers and the generational cache (src/wgpu/src/text.rs lines 276-349) -/

/-- A shaped paragraph buffer (`glyphon::Buffer`).  Shaping itself is an
external collaborator; the model keeps what the pipeline reads back from a
buffer: the width of each laid-out line (`layout_runs()`'s `line_w`),
as exact rationals. -/
structure Buffer where
  lineWidths : List ℚ
deriving DecidableEq, Repr

/-- First value stored under key `h` in an association list (the model of
`FxHashMap` entries; the map never stores duplicate keys). -/
def lookupEntry (h : Nat) : List (Nat × Buffer) → Option Buffer
  | [] => none
  | e :: es => if e.1 = h then some e.2 else lookupEntry h es

/-- Insert a fingerprint into the `recently_used` set. -/
def insertUsed (h : Nat) (l : List Nat) : List Nat :=
  if h ∈ l then l else h :: l

/-- The shaped-text cache (lines 276-280): entries, the fingerprints touched
since the last trim, and the hasher state.  On non-wasm targets the hasher
(`twox_hash::RandomXxHashBuilder64`) draws a random seed when the cache is
created; the wasm builder (`BuildHasherDefault<XxHash64>`) always has seed 0.
Either way, the seed is fixed for the cache's lifetime. -/
structure Cache where
  entries : List (Nat × Buffer)
  recentlyUsed : List Nat
  seed : Nat
deriving DecidableEq, Repr

/-- `Cache::new` (lines 289-295) with the seed its hash builder drew. -/
def Cache.new (seed : Nat) : Cache :=
  { entries := [], recentlyUsed := [], seed := seed }

/-- `Cache::get` (lines 297-299). -/
def Cache.get (c : Cache) (key : Nat) : Option Buffer := lookupEntry key c.entries

/-- Result of `Cache::allocate`: the fingerprint, the returned buffer, the
updated cache, and whether this call ran the shaping computation (the
`Vacant` branch: `Buffer::new`, `set_size`, `set_text`). -/
structure Alloc where
  hash : Nat
  buffer : Buffer
  shaped : Bool
  cache : Cache
deriving DecidableEq, Repr

/-- `Cache::allocate` (lines 301-341): fingerprint the key; shape and insert
only if the fingerprint is vacant; always mark it recently used; return the
stored buffer.  Shaping (metrics from `key.size`, wrapping to `key.bounds`,
font attributes — all external glyphon calls) is the `shape` parameter. -/
def Cache.allocate (shape : Key → Buffer) (c : Cache) (key : Key) : Alloc :=
  let hash := fingerprint c.seed key
  match lookupEntry hash c.entries with
  | some buffer =>
    let cache := { c with recentlyUsed := insertUsed hash c.recentlyUsed }
    { hash := hash, buffer := buffer, shaped := false, cache := cache }
  | none =>
    let buffer := shape key
    let cache := { c with entries := c.entries ++ [(hash, buffer)],
                          recentlyUsed := insertUsed hash c.recentlyUsed }
    { hash := hash, buffer := buffer, shaped := true, cache := cache }

/-- `Cache::trim` (lines 343-348): retain exactly the entries whose
fingerprint is in `recently_used`, then clear `recently_used`. -/
def Cache.trim (c : Cache) : Cache :=
  { c with entries := c.entries.filter fun e => e.1 ∈ c.recentlyUsed,
           recentlyUsed := [] }

/-! ### Cache lemmas -/

theorem lookupEntry_append (h : Nat) (l1 l2 : List (Nat × Buffer)) :
    lookupEntry h (l1 ++ l2)
      = match lookupEntry h l1 with
        | some b => some b
        | none => lookupEntry h l2 := by
  induction l1 with
  | nil => simp [lookupEntry]
  | cons e es ih =>
    by_cases he : e.1 = h <;> simp [lookupEntry, he, ih]

theorem lookupEntry_append_left {h : Nat} {l1 : List (Nat × Buffer)} {b : Buffer}
    (hl : lookupEntry h l1 = some b) (l2 : List (Nat × Buffer)) :
    lookupEntry h (l1 ++ l2) = some b := by
  rw [lookupEntry_append, hl]

theorem lookupEntry_append_self {h : Nat} {l : List (Nat × Buffer)}
    (hl : lookupEntry h l = none) (b : Buffer) :
    lookupEntry h (l ++ [(h, b)]) = some b := by
  rw [lookupEntry_append, hl, lookupEntry]
  simp [lookupEntry]

theorem allocate_hash (shape : Key → Buffer) (c : Cache) (key : Key) :
    (c.allocate shape key).hash = fingerprint c.seed key := by
  cases hl : lookupEntry (fingerprint c.seed key) c.entries <;>
    simp [Cache.allocate, hl]

theorem allocate_seed (shape : Key → Buffer) (c : Cache) (key : Key) :
    (c.allocate shape key).cache.seed = c.seed := by
  cases hl : lookupEntry (fingerprint c.seed key) c.entries <;>
    simp [Cache.allocate, hl]

/-- After `allocate`, the returned buffer is exactly the one stored under
the returned fingerprint. -/
theorem allocate_lookup_self (shape : Key → Buffer) (c : Cache) (key : Key) :
    lookupEntry (fingerprint c.seed key) (c.allocate shape key).cache.entries
      = some (c.allocate shape key).buffer := by
  cases hl : lookupEntry (fingerprint c.seed key) c.entries with
  | some b => simp [Cache.allocate, hl]
  | none => simp [Cache.allocate, hl, lookupEntry_append_self hl]

/-- `allocate` never removes or overwrites a stored entry. -/
theorem allocate_preserves_lookup (shape : Key → Buffer) (c : Cache) (key : Key)
    {h : Nat} {b : Buffer} (hl : lookupEntry h c.entries = some b) :
    lookupEntry h (c.allocate shape key).cache.entries = some b := by
  cases hk : lookupEntry (fingerprint c.seed key) c.entries with
  | some b2 => simpa [Cache.allocate, hk] using hl
  | none => simp [Cache.allocate, hk, lookupEntry_append_left hl]

/-- On a hit, `allocate` does not shape and returns the stored buffer. -/
theorem allocate_hit (shape : Key → Buffer) (c : Cache) (key : Key) {b : Buffer}
    (hl : lookupEntry (fingerprint c.seed key) c.entries = some b) :
    (c.allocate shape key).shaped = false ∧ (c.allocate shape key).buffer = b := by
  simp [Cache.allocate, hl]

/-- `allocate` shapes exactly on a miss. -/
theorem allocate_shaped_iff (shape : Key → Buffer) (c : Cache) (key : Key) :
    (c.allocate shape key).shaped = true
      ↔ lookupEntry (fingerprint c.seed key) c.entries = none := by
  cases hl : lookupEntry (fingerprint c.seed key) c.entries <;>
    simp [Cache.allocate, hl]

theorem lookupEntry_filter (p : Nat → Bool) (l : List (Nat × Buffer)) (h : Nat) :
    lookupEntry h (l.filter fun e => p e.1)
      = if p h then lookupEntry h l else none := by
  induction l with
  | nil => simp [lookupEntry]
  | cons e es ih =>
    by_cases hp : p e.1 <;> by_cases he : e.1 = h <;>
      simp_all [lookupEntry, List.filter_cons]

/-! ### Claim theorems C4 and C5 -/

/-- Claim C4: for every key, calling `Cache.allocate` twice (or more) with
an identical key on the same cache, with no intervening trim, runs the
underlying shaping computation exactly once: the first call shapes exactly
when the fingerprint is vacant, the second and later calls (even with an
allocation of another key in between) perform no shaping and reuse the
stored buffer. -/
theorem claim_C4 (shape : Key → Buffer) (c : Cache) (k k2 : Key) :
    ((c.allocate shape k).shaped = true
        ↔ lookupEntry (fingerprint c.seed k) c.entries = none)
    ∧ ((c.allocate shape k).cache.allocate shape k).shaped = false
    ∧ ((c.allocate shape k).cache.allocate shape k).buffer = (c.allocate shape k).buffer
    ∧ (((c.allocate shape k).cache.allocate shape k2).cache.allocate shape k).shaped = false
    ∧ (((c.allocate shape k).cache.allocate shape k2).cache.allocate shape k).buffer
        = (c.allocate shape k).buffer := by
  have hseed1 : (c.allocate shape k).cache.seed = c.seed := allocate_seed ..
  have h1 : lookupEntry (fingerprint c.seed k) (c.allocate shape k).cache.entries
      = some (c.allocate shape k).buffer := allocate_lookup_self ..
  have h2 : lookupEntry (fingerprint c.seed k)
      ((c.allocate shape k).cache.allocate shape k2).cache.entries
      = some (c.allocate shape k).buffer := by
    have := allocate_preserves_lookup shape (c.allocate shape k).cache k2 h1
    simpa [hseed1] using this
  have hseed2 : ((c.allocate shape k).cache.allocate shape k2).cache.seed = c.seed := by
    rw [allocate_seed, hseed1]
  refine ⟨allocate_shaped_iff .., ?_, ?_, ?_, ?_⟩
  · exact (allocate_hit shape _ k (by rw [hseed1]; exact h1)).1
  · exact (allocate_hit shape _ k (by rw [hseed1]; exact h1)).2
  · exact (allocate_hit shape _ k (by rw [hseed2]; exact h2)).1
  · exact (allocate_hit shape _ k (by rw [hseed2]; exact h2)).2

/-- Claim C5: after `Cache.trim`, the entries map contains exactly those
pre-trim entries whose fingerprint was in `recently_used` (touched entries
are retained with their buffers, untouched ones are dropped), and
`recently_used` is empty. -/
theorem claim_C5 (c : Cache) (h : Nat) :
    (lookupEntry h (Cache.trim c).entries
      = if h ∈ c.recentlyUsed then lookupEntry h c.entries else none)
    ∧ (Cache.trim c).recentlyUsed = [] := by
  refine ⟨?_, rfl⟩
  have := lookupEntry_filter (fun a => decide (a ∈ c.recentlyUsed)) c.entries h
  simpa [Cache.trim] using this

/-! ## Placement and color quantization (src/wgpu/src/text.rs lines 95-141) -/

/-- `alignment::Horizontal`. -/
inductive Horizontal where
  | left
  | center
  | right
deriving DecidableEq, Repr

/-- `alignment::Vertical`. -/
inductive Vertical where
  | top
  | center
  | bottom
deriving DecidableEq, Repr

/-- The fold over `buffer.layout_runs()` (lines 103-108 and 224-229):
`enumerate().fold((0, 0.0), |(_, max), (i, buffer)| (i + 1,
buffer.line_w.max(max)))`, yielding the line count and the maximum line
width. -/
def layoutStats (runs : List ℚ) : Nat × ℚ :=
  runs.enum.foldl (fun p e => (e.1 + 1, max e.2 p.2)) (0, 0)

theorem layoutStats_go (l : List ℚ) : ∀ (n a : Nat) (m : ℚ),
    (List.enumFrom n l).foldl (fun p e => (e.1 + 1, max e.2 p.2)) (a, m)
      = (if l = [] then a else n + l.length, l.foldl (fun acc w => max w acc) m) := by
  induction l with
  | nil => intro n a m; simp
  | cons w l ih =>
    intro n a m
    rcases eq_or_ne l [] with h | h <;> simp [List.enumFrom, ih, h]
    omega

/-- The enumerate-fold returns the number of lines and the maximum line
width (seeded with `0.0`). -/
theorem layoutStats_eq (l : List ℚ) :
    layoutStats l = (l.length, l.foldl (fun acc w => max w acc) 0) := by
  have h := layoutStats_go l 0 0 0
  rcases eq_or_ne l [] with he | he <;>
    simp [layoutStats, List.enum, he] at h ⊢
  simpa using h

/-- The per-section placement computation of `Pipeline::prepare` (lines
100-123): scale the section anchor, fold the shaped buffer's layout runs,
compute `total_height = total_lines × size × 1.2 × scale_factor`, and
resolve the alignment matches.  The `f32` line-height literal `1.2` is
idealized as the rational `6 / 5`; the arithmetic is exact rational
arithmetic. -/
def placeSection (lineWidths : List ℚ) (boundsX boundsY size scale : ℚ)
    (ha : Horizontal) (va : Vertical) : ℚ × ℚ :=
  let x := boundsX * scale
  let y := boundsY * scale
  let s := layoutStats lineWidths
  let totalHeight := (s.1 : ℚ) * size * (6 / 5) * scale
  let left :=
    match ha with
    | .left => x
    | .center => x - s.2 / 2
    | .right => x - s.2
  let top :=
    match va with
    | .top => y
    | .center => y - totalHeight / 2
    | .bottom => y - totalHeight
  (left, top)

/-- The Rust expression `q as u8` applied to a (finite, exactly-known)
`f32` value `q`: round toward zero, saturating into `[0, 255]`. -/
def castU8 (q : ℚ) : Nat := min 255 (max 0 ⌊q⌋).toNat

/-- The per-channel color conversion of `Pipeline::prepare` (lines
130-139): `(channel * 255.0) as u8`.  The multiplication `c * 255.0` is
exact in `f32` at every input the theorems below use. -/
def quantizeChannel (c : ℚ) : Nat := castU8 (c * 255)

/-- Stated from the spec's words, for comparison with `quantizeChannel`:
`round(channel × 255)` (round half away from zero, as Rust's `f32::round`;
identical to round half up on the nonnegative channel range). -/
def roundChannelSpec (c : ℚ) : Nat := (max 0 ⌊c * 255 + 1 / 2⌋).toNat

/-! ## The pipeline (src/wgpu/src/text.rs lines 13-263) -/

/-- Outcome of the external `renderer.prepare` call (lines 143-154): either
success or `PrepareError::AtlasFull`.  (The content-type tag only flows
back into `atlas.grow`, which is itself external; it is absorbed into the
`grow` parameter below.) -/
inductive PrepareResult where
  | ok
  | atlasFull
deriving DecidableEq, Repr

/-- The pipeline state (lines 13-21): loaded font sources, the growable
renderer sequence (`Vec<TextRenderer>`, each element an external GPU
object — only the count matters to this layer), the atlas (external,
abstract type `α`), the layer cursor, and the two caches. -/
structure Pipeline (α : Type) where
  fonts : List (List Nat)
  renderers : Nat
  atlas : α
  prepareLayer : Nat
  measurementCache : Cache
  renderCache : Cache

/-- `Pipeline::new` (lines 24-42), with the atlas produced externally and
the random seeds the two caches' hash builders drew. -/
def Pipeline.new {α : Type} (atlas : α) (measurementSeed renderSeed : Nat) : Pipeline α :=
  { fonts := [], renderers := 0, atlas := atlas, prepareLayer := 0,
    measurementCache := Cache.new measurementSeed, renderCache := Cache.new renderSeed }

/-- `Pipeline::load_font` (lines 44-48): append a font source to the
registry. -/
def Pipeline.loadFont {α : Type} (bytes : List Nat) (p : Pipeline α) : Pipeline α :=
  { p with fonts := p.fonts ++ [bytes] }

/-- `Pipeline::prepare` (lines 50-176).  `keys` are the per-section cache
keys after scaling (the scaling arithmetic itself is `f32`; the placement
part of the loop body is modelled by `placeSection` and the color part by
`quantizeChannel`).  `result` is the outcome of the external
`renderer.prepare` GPU call, and `grow` is the external `atlas.grow`
operation (new atlas state and whether growth succeeded).

Control flow translated from lines 59-175: push a renderer if the cursor
is past the end; allocate every section key in the render cache; on `Ok`
advance the layer cursor and return `true`; on `AtlasFull` reset the
cursor to `0`, try to grow the atlas, and return `false` if growth
succeeded (caller must re-prepare) or `true` if it failed (degrade and
continue). -/
def Pipeline.prepare {α : Type} (shape : Key → Buffer) (keys : List Key)
    (result : PrepareResult) (grow : α → α × Bool) (p : Pipeline α) :
    Bool × Pipeline α :=
  let p1 := if p.renderers ≤ p.prepareLayer
    then { p with renderers := p.renderers + 1 } else p
  let p2 := { p1 with
    renderCache := keys.foldl (fun c k => (c.allocate shape k).cache) p1.renderCache }
  match result with
  | .ok => (true, { p2 with prepareLayer := p2.prepareLayer + 1 })
  | .atlasFull =>
    let g := grow p2.atlas
    (if g.2 then false else true, { p2 with prepareLayer := 0, atlas := g.1 })

/-- `Pipeline::render` (lines 178-196): index the renderer sequence
(`&self.renderers[layer]` — panics when `layer` is out of bounds, before
the scissor rectangle is set or any GPU work happens), then issue the
external draw call, whose failure panics via `expect("Render text")`.
`gpuOk` is the outcome of that external call. -/
def Pipeline.render {α : Type} (p : Pipeline α) (layer : Nat) (gpuOk : Bool) :
    Except String Unit :=
  if layer < p.renderers then
    if gpuOk then Except.ok () else Except.error "Render text"
  else Except.error "index out of bounds"

/-- `Pipeline::end_frame` (lines 198-203): trim the atlas (external
operation `atlasTrim`) and the render cache, and reset the layer cursor. -/
def Pipeline.endFrame {α : Type} (atlasTrim : α → α) (p : Pipeline α) : Pipeline α :=
  { p with atlas := atlasTrim p.atlas, renderCache := p.renderCache.trim,
           prepareLayer := 0 }

/-- `Pipeline::measure` (lines 205-232): allocate from the measurement
cache, fold the layout runs, return `(max_width, size * 1.2 *
total_lines)`. -/
def Pipeline.measure {α : Type} (shape : Key → Buffer) (key : Key) (p : Pipeline α) :
    (ℚ × ℚ) × Pipeline α :=
  let a := p.measurementCache.allocate shape key
  let s := layoutStats a.buffer.lineWidths
  ((s.2, key.size.val * (6 / 5) * (s.1 : ℚ)), { p with measurementCache := a.cache })

/-- `Pipeline::hit_test` (lines 234-258): allocate from the measurement
cache and query the shaped paragraph (`paragraph.hit`, external — the
`hitFn` parameter) for the character offset at the point. -/
def Pipeline.hitTest {α : Type} (shape : Key → Buffer) (key : Key)
    (hitFn : Buffer → Option Nat) (p : Pipeline α) : Option Nat × Pipeline α :=
  let a := p.measurementCache.allocate shape key
  (hitFn a.buffer, { p with measurementCache := a.cache })

/-- `Pipeline::trim_measurement_cache` (lines 260-262). -/
def Pipeline.trimMeasurementCache {α : Type} (p : Pipeline α) : Pipeline α :=
  { p with measurementCache := p.measurementCache.trim }

/-- A concrete pipeline state used by witnesses and counterexamples. -/
def samplePipeline : Pipeline Unit := Pipeline.new () 0 0

/-- A concrete shaping stub used by witnesses and counterexamples. -/
def sampleShape : Key → Buffer := fun _ => { lineWidths := [] }

/-! ## Claim theorems about the pipeline -/

/-- Claim C1, as stated, is false at this concrete input: with the
underlying renderer preparation succeeding, `prepare` returns `true`, not
`false`. -/
theorem claim_C1_counterexample :
    ¬ (Pipeline.prepare sampleShape [] .ok (fun a => (a, true)) samplePipeline).1
        = false := by
  decide

/-- Claim C1 as amended: on renderer-preparation success the layer cursor
advances by exactly one and `prepare` returns `true`; on atlas
fill-failure the layer cursor resets to zero and `prepare` returns `false`
when `atlas.grow` succeeds (the caller must re-prepare) and `true` when it
fails (rendering degrades instead of aborting). -/
theorem claim_C1 {α : Type} (p : Pipeline α) (shape : Key → Buffer)
    (keys : List Key) (grow : α → α × Bool) :
    (Pipeline.prepare shape keys .ok grow p).1 = true
    ∧ (Pipeline.prepare shape keys .ok grow p).2.prepareLayer = p.prepareLayer + 1
    ∧ (Pipeline.prepare shape keys .atlasFull grow p).2.prepareLayer = 0
    ∧ (Pipeline.prepare shape keys .atlasFull grow p).1 = !(grow p.atlas).2 := by
  refine ⟨rfl, ?_, ?_, ?_⟩
  · simp only [Pipeline.prepare]
    split <;> rfl
  · rfl
  · simp only [Pipeline.prepare]
    split <;> cases hg : (grow p.atlas).2 <;> simp [hg]

/-- Claim C3, as stated, is false at the concrete channel value `1 / 256`
(an exactly representable `f32`, with `(1 / 256) × 255 = 255 / 256` also
exact in `f32`): the code's truncating cast yields byte `0` while the
spec's `round(channel × 255)` yields `1`. -/
theorem claim_C3_counterexample :
    quantizeChannel (1 / 256) ≠ roundChannelSpec (1 / 256) := by
  have h1 : ⌊(1 / 256 : ℚ) * 255⌋ = 0 := by
    rw [Int.floor_eq_iff]; norm_num
  have h2 : ⌊(1 / 256 : ℚ) * 255 + 1 / 2⌋ = 1 := by
    rw [Int.floor_eq_iff]; norm_num
  simp only [quantizeChannel, castU8, roundChannelSpec, h1, h2]
  omega

/-- Claim C3 as amended: each linear channel is converted by the
truncating saturating cast `(c × 255.0) as u8` (round toward zero), not by
`round`; the boundary values still hold: channel `1.0` maps to byte `255`
and `0.0` maps to `0`; the rounding rule fixes `0.5` to `127` and
`1 / 256` to `0`. -/
theorem claim_C3 :
    quantizeChannel 1 = 255 ∧ quantizeChannel 0 = 0
    ∧ quantizeChannel (1 / 2) = 127 ∧ quantizeChannel (1 / 256) = 0 := by
  have h1 : ⌊(1 : ℚ) * 255⌋ = 255 := by
    rw [Int.floor_eq_iff]; norm_num
  have h0 : ⌊(0 : ℚ) * 255⌋ = 0 := by
    rw [Int.floor_eq_iff]; norm_num
  have hh : ⌊(1 / 2 : ℚ) * 255⌋ = 127 := by
    rw [Int.floor_eq_iff]; norm_num
  have hs : ⌊(1 / 256 : ℚ) * 255⌋ = 0 := by
    rw [Int.floor_eq_iff]; norm_num
  refine ⟨?_, ?_, ?_, ?_⟩ <;> simp only [quantizeChannel, castU8, h1, h0, hh, hs] <;>
    omega

/-- Claim C6: `end_frame` trims the atlas and the render cache and resets
the layer cursor to zero while leaving the measurement cache unchanged;
the measurement cache is left unchanged by `prepare` and `load_font` as
well, and is modified only by `trim_measurement_cache` (which touches
nothing else) and by the `measure`/`hit_test` allocations. -/
theorem claim_C6 {α : Type} (p : Pipeline α) (atlasTrim : α → α)
    (shape : Key → Buffer) (keys : List Key) (result : PrepareResult)
    (grow : α → α × Bool) (key : Key) (bytes : List Nat)
    (hitFn : Buffer → Option Nat) :
    (Pipeline.endFrame atlasTrim p).measurementCache = p.measurementCache
    ∧ (Pipeline.endFrame atlasTrim p).renderCache = p.renderCache.trim
    ∧ (Pipeline.endFrame atlasTrim p).atlas = atlasTrim p.atlas
    ∧ (Pipeline.endFrame atlasTrim p).prepareLayer = 0
    ∧ (Pipeline.prepare shape keys result grow p).2.measurementCache
        = p.measurementCache
    ∧ (Pipeline.loadFont bytes p).measurementCache = p.measurementCache
    ∧ (Pipeline.trimMeasurementCache p).measurementCache = p.measurementCache.trim
    ∧ (Pipeline.trimMeasurementCache p).renderCache = p.renderCache
    ∧ (Pipeline.trimMeasurementCache p).prepareLayer = p.prepareLayer
    ∧ (Pipeline.measure shape key p).2.measurementCache
        = (p.measurementCache.allocate shape key).cache
    ∧ (Pipeline.hitTest shape key hitFn p).2.measurementCache
        = (p.measurementCache.allocate shape key).cache := by
  refine ⟨rfl, rfl, rfl, rfl, ?_, rfl, rfl, rfl, rfl, rfl, rfl⟩
  cases result <;> simp only [Pipeline.prepare] <;> split <;> rfl

/-- Claim C8: for a section with scaled anchor `x = boundsX × scale` and
shaped maximum line width `max_width`, the horizontal placement is `x`
(left), `x − max_width / 2` (center), `x − max_width` (right); the
vertical placement is `y` (top), `y − total_height / 2` (center),
`y − total_height` (bottom) with `total_height = line_count × size × 1.2 ×
scale`; and concretely with `max_width = 100`, `x = 50`: center yields
`left = 0`, right yields `left = −50`, left yields `left = 50`. -/
theorem claim_C8 (lineWidths : List ℚ) (boundsX boundsY size scale : ℚ)
    (va : Vertical) (ha : Horizontal) :
    (placeSection lineWidths boundsX boundsY size scale .left va).1
        = boundsX * scale
    ∧ (placeSection lineWidths boundsX boundsY size scale .center va).1
        = boundsX * scale - (lineWidths.foldl (fun acc w => max w acc) 0) / 2
    ∧ (placeSection lineWidths boundsX boundsY size scale .right va).1
        = boundsX * scale - lineWidths.foldl (fun acc w => max w acc) 0
    ∧ (placeSection lineWidths boundsX boundsY size scale ha .top).2
        = boundsY * scale
    ∧ (placeSection lineWidths boundsX boundsY size scale ha .center).2
        = boundsY * scale
          - ((lineWidths.length : ℚ) * size * (6 / 5) * scale) / 2
    ∧ (placeSection lineWidths boundsX boundsY size scale ha .bottom).2
        = boundsY * scale - (lineWidths.length : ℚ) * size * (6 / 5) * scale
    ∧ (placeSection [100] 50 0 16 1 .center .top).1 = 0
    ∧ (placeSection [100] 50 0 16 1 .right .top).1 = -50
    ∧ (placeSection [100] 50 0 16 1 .left .top).1 = 50 := by
  refine ⟨?_, ?_, ?_, ?_, ?_, ?_,
    by norm_num [placeSection, layoutStats_eq, max_def],
    by norm_num [placeSection, layoutStats_eq, max_def],
    by norm_num [placeSection, layoutStats_eq, max_def]⟩ <;>
    simp [placeSection, layoutStats_eq]

/-- Claim C9: `measure` returns exactly
`(max_line_width, line_count × size × 1.2)` where `max_line_width` is the
maximum line width and `line_count` the number of lines of the shaped
buffer allocated from the measurement cache for that key (and the
measurement cache is updated by exactly that allocation). -/
theorem claim_C9 {α : Type} (p : Pipeline α) (shape : Key → Buffer) (key : Key) :
    (Pipeline.measure shape key p).1
      = (((p.measurementCache.allocate shape key).buffer.lineWidths).foldl
            (fun acc w => max w acc) 0,
         (((p.measurementCache.allocate shape key).buffer.lineWidths).length : ℚ)
           * key.size.val * (6 / 5))
    ∧ (Pipeline.measure shape key p).2.measurementCache
        = (p.measurementCache.allocate shape key).cache := by
  refine ⟨?_, rfl⟩
  simp only [Pipeline.measure, layoutStats_eq]
  refine Prod.ext rfl ?_
  ring

/-- Claim C10: the layer index passed to `render` must be strictly below
the number of renderer layers allocated so far; any index at or past that
count hits the out-of-bounds panic of `&self.renderers[layer]` before any
GPU work (the scissor rectangle and the draw call), whatever the GPU
outcome would have been. -/
theorem claim_C10 {α : Type} (p : Pipeline α) (layer : Nat) (gpuOk : Bool)
    (h : p.renderers ≤ layer) :
    Pipeline.render p layer gpuOk = Except.error "index out of bounds" := by
  have : ¬ layer < p.renderers := not_lt.mpr h
  simp [Pipeline.render, this]

/-- Witness for claim C10 at a concrete input: the freshly created
pipeline has no renderer layers, so rendering layer `3` panics on
indexing even though the GPU call would have succeeded. -/
theorem claim_C10_witness :
    Pipeline.render samplePipeline 3 true = Except.error "index out of bounds" :=
  claim_C10 samplePipeline 3 true (by decide)

/-! ## Claim theorems about the fingerprint (C2 and C7) -/

/-- A key with the same bit-level fields as `sampleKey`, written
differently. -/
def sampleKeyAlt : Key :=
  { content := [104] ++ [105], size := ⟨0x41800000⟩, font := .sansSerif,
    bounds := { width := ⟨0x42C80000⟩, height := ⟨0x42480000⟩ } }

/-- Claim C2, as stated, is false across process runs (on the non-wasm
targets): the cache's hash builder `RandomXxHashBuilder64` draws a fresh
random seed per cache per process, and the fingerprint genuinely depends
on that seed — two runs whose caches drew seeds `0` and `1` produce
different fingerprints for the identical bit-level key. -/
theorem claim_C2_counterexample :
    fingerprint 0 sampleKey ≠ fingerprint 1 sampleKey := by
  decide

/-- Claim C2 as amended: within one cache (whose hasher seed is fixed at
creation), the fingerprint is a pure deterministic function of the key's
bit-level inputs — identical content, font, and bit-identical size and
bounds floats always produce the identical fingerprint, on repeated
`allocate` calls as well; reproducibility across process runs holds only
when the two runs' hash builders share the seed (the wasm builder's
default seed; the native builder seeds randomly). -/
theorem claim_C2 (seed : Nat) (k1 k2 : Key) (shape : Key → Buffer) (c : Cache) :
    (k1.content = k2.content → k1.size.bits = k2.size.bits → k1.font = k2.font →
      k1.bounds.width.bits = k2.bounds.width.bits →
      k1.bounds.height.bits = k2.bounds.height.bits →
      fingerprint seed k1 = fingerprint seed k2)
    ∧ (c.allocate shape k1).hash
        = ((c.allocate shape k2).cache.allocate shape k1).hash := by
  constructor
  · intro hc hs hf hw hh
    have hk : k1 = k2 := by
      obtain ⟨c1, ⟨s1⟩, f1, ⟨⟨w1⟩, ⟨h1⟩⟩⟩ := k1
      obtain ⟨c2, ⟨s2⟩, f2, ⟨⟨w2⟩, ⟨h2⟩⟩⟩ := k2
      simp_all
    rw [hk]
  · rw [allocate_hash, allocate_hash, allocate_seed]

/-- Witness for the amended claim C2 at concrete inputs: two syntactically
different keys with identical bit-level fields share their fingerprint. -/
theorem claim_C2_witness : fingerprint 0 sampleKey = fingerprint 0 sampleKeyAlt :=
  (claim_C2 0 sampleKey sampleKeyAlt sampleShape (Cache.new 0)).1 rfl rfl rfl rfl rfl

theorem leBytes_four_inj {a b : Nat} (h : leBytes 4 a = leBytes 4 b) :
    a % 2 ^ 32 = b % 2 ^ 32 := by
  have h4 : List.range 4 = [0, 1, 2, 3] := rfl
  simp only [leBytes, h4, List.map_cons, List.map_nil, List.cons.injEq, and_true] at h
  norm_num at h ⊢
  omega

/-- Claim C7 as amended: the raw `f32` bits are hashed with no rounding or
tolerance — two keys with identical content and font that differ in the
`u32` value of `bounds.width`'s bit pattern feed different byte streams to
the hasher, and the spec's concrete example pair (flipping only the
least-significant bit of `bounds.width`) produces different fingerprints
(computed here for a cache whose seed is 0); distinct fingerprints are
independent cache entries.  (Unlike the original claim, distinct byte
streams are not guaranteed distinct fingerprints for *every* pair — see
the counterexample.) -/
theorem claim_C7 :
    (∀ k1 k2 : Key, k1.content = k2.content → k1.size.bits = k2.size.bits →
      k1.font = k2.font → k1.bounds.height.bits = k2.bounds.height.bits →
      k1.bounds.width.bits % 2 ^ 32 ≠ k2.bounds.width.bits % 2 ^ 32 →
      Key.bytes k1 ≠ Key.bytes k2)
    ∧ fingerprint 0 sampleKey ≠ fingerprint 0 sampleKeyLsb := by
  constructor
  · intro k1 k2 hc hs hf hh hw heq
    apply hw
    apply leBytes_four_inj
    simp only [Key.bytes, hc, hs, hf, hh, List.append_assoc] at heq
    have e1 := List.append_cancel_left heq
    have e2 := List.append_cancel_left e1
    have e3 := List.append_cancel_left e2
    have e4 := List.append_cancel_left e3
    exact List.append_cancel_right e4
  · decide

/-- Witness for the amended claim C7 at the spec's concrete example: the
byte streams of `sampleKey` and of its bounds-width-LSB-flipped variant
differ. -/
theorem claim_C7_witness : Key.bytes sampleKey ≠ Key.bytes sampleKeyLsb :=
  claim_C7.1 sampleKey sampleKeyLsb rfl rfl rfl rfl (by decide)

/-- Claim C7, as stated, is false as a universal statement: the fingerprint
maps the `2 ^ 96` keys that share content and font but range over all bit
patterns of size, bounds.width and bounds.height into only `2 ^ 64` values,
so by the pigeonhole principle some pair of such keys — with identical
content and font, valid 32-bit float patterns, and differing in at least
one bit of size or bounds — collides on its fingerprint and hence shares
one cache entry. -/
theorem claim_C7_counterexample :
    ∃ k1 k2 : Key, k1.content = k2.content ∧ k1.font = k2.font
      ∧ k1.size.bits < 2 ^ 32 ∧ k1.bounds.width.bits < 2 ^ 32
      ∧ k1.bounds.height.bits < 2 ^ 32 ∧ k2.size.bits < 2 ^ 32
      ∧ k2.bounds.width.bits < 2 ^ 32 ∧ k2.bounds.height.bits < 2 ^ 32
      ∧ (k1.size.bits ≠ k2.size.bits ∨ k1.bounds.width.bits ≠ k2.bounds.width.bits
          ∨ k1.bounds.height.bits ≠ k2.bounds.height.bits)
      ∧ fingerprint 0 k1 = fingerprint 0 k2 := by
  let mk : Fin (2 ^ 32) × Fin (2 ^ 32) × Fin (2 ^ 32) → Key := fun t =>
    { content := [97], size := ⟨t.1.1⟩, font := .sansSerif,
      bounds := { width := ⟨t.2.1.1⟩, height := ⟨t.2.2.1⟩ } }
  have hcard : Fintype.card (Fin (2 ^ 64))
      < Fintype.card (Fin (2 ^ 32) × Fin (2 ^ 32) × Fin (2 ^ 32)) := by
    simp only [Fintype.card_prod, Fintype.card_fin]
    norm_num
  obtain ⟨a, b, hne, hfeq⟩ := Fintype.exists_ne_map_eq_of_card_lt
    (fun t => (⟨fingerprint 0 (mk t), fingerprint_lt 0 (mk t)⟩ : Fin (2 ^ 64))) hcard
  have hval : fingerprint 0 (mk a) = fingerprint 0 (mk b) := congrArg Fin.val hfeq
  have hdis : a.1.1 ≠ b.1.1 ∨ a.2.1.1 ≠ b.2.1.1 ∨ a.2.2.1 ≠ b.2.2.1 := by
    by_contra hcon
    push_neg at hcon
    exact hne (Prod.ext (Fin.ext hcon.1) (Prod.ext (Fin.ext hcon.2.1) (Fin.ext hcon.2.2)))
  exact ⟨mk a, mk b, rfl, rfl, a.1.isLt, a.2.1.isLt, a.2.2.isLt,
    b.1.isLt, b.2.1.isLt, b.2.2.isLt, hdis, hval⟩

end IcedText
